import Mathlib

/-!
Verification of the request-handling pipeline of `aoai-simulated-api`
(`src/aoai_simulated_api/app_builder.py`).

The pipeline is shallowly embedded: FastAPI responses become `SimResponse`,
the per-request context value bag becomes the typed `ContextValues`, and
the external collaborators (generators, record/replay handler, limiters,
histogram recording) are modelled by per-request outcome oracles in
`RunEnv` — each can either return a value or raise, exactly the
possibilities the Python call sites admit.  Wall-clock readings of
`time.perf_counter` are summarised by `base_duration_s`, the elapsed time
from `start_time` to just after the limiter stage; times are rationals.
-/

namespace AoaiSim

/-- The simulator operating mode (`config.simulator_mode`), one of
`generate`, `record`, `replay`. -/
inductive SimulatorMode where
  | generate
  | record
  | replay
deriving DecidableEq, Repr

/-- An HTTP response as the pipeline sees it: status code and body. -/
structure SimResponse where
  status_code : Nat
  body : String := ""
deriving DecidableEq, Repr

/-- Process-wide configuration relevant to the pipeline. -/
structure Config where
  simulator_mode : SimulatorMode
  simulator_api_key : String
deriving DecidableEq, Repr

/-- The per-request context value bag (`context.values`), typed: the keys
the pipeline reads are the limiter name, the deployment name, the OpenAI
token count and the recorded duration in milliseconds. -/
structure ContextValues where
  limiter_name : Option String := none
  deployment_name : Option String := none
  openai_tokens : Option Nat := none
  recorded_duration_ms : Option ℚ := none
deriving DecidableEq, Repr

/-- Python truthiness of an optional string header / dict value:
absent and the empty string are falsy. -/
def truthyStr : Option String → Bool
  | some s => s ≠ ""
  | none => false

/-- Python truthiness of an optional numeric dict value: absent and zero
are falsy. -/
def truthyNat : Option Nat → Bool
  | some n => n ≠ 0
  | none => false

/-- Outcome of calling an external collaborator: the call either raises an
exception or returns a value. -/
inductive CallOutcome (α : Type) where
  | raises
  | returns (a : α)
deriving DecidableEq, Repr

/-- The three credential carriers of an inbound request: the
`Authorization` header, the `api-key` header and the
`ocp-apim-subscription-key` header.  `none` models an absent header. -/
structure Credentials where
  authorization : Option String := none
  api_key : Option String := none
  ocp_apim_subscription_key : Option String := none
deriving DecidableEq, Repr

/-- Functional content of `secrets.compare_digest`: equality of the two
strings.  (Its constant-time execution is a timing property outside the
embedding.) -/
def compare_digest (a b : String) : Bool := a = b

/-- The 401 response raised by `validate_api_key` when no carrier
matches. -/
def auth_failure_response : SimResponse :=
  { status_code := 401, body := "Missing or incorrect API Key" }

/-- `validate_api_key`: accept if the `Authorization` header is truthy
(unconditionally), else if `api-key` is truthy and matches the configured
secret, else if `ocp-apim-subscription-key` is truthy and matches; else
raise a 401 `HTTPException`. -/
def validate_api_key (simulator_api_key : String) (c : Credentials) :
    Except SimResponse Bool :=
  if truthyStr c.authorization then
    .ok true
  else if truthyStr c.api_key &&
      compare_digest (c.api_key.getD "") simulator_api_key then
    .ok true
  else if truthyStr c.ocp_apim_subscription_key &&
      compare_digest (c.ocp_apim_subscription_key.getD "") simulator_api_key then
    .ok true
  else
    .error auth_failure_response

/-- The limiter registry built at startup: limiters are registered under
the keys `openai` and `docintelligence`. -/
def limiters_contains (name : String) : Bool :=
  name = "openai" || name = "docintelligence"

/-- Which histogram `record` call raises, when the metrics oracle is set
to fail. -/
inductive MetricsCall where
  | base
  | full
  | requested
  | used
deriving DecidableEq, Repr

/-- Observations accumulated in the four histograms during one request:
latency observations carry (value, status_code attribute, deployment
attribute); token observations carry (value, deployment attribute). -/
structure Metrics where
  latency_base : List (ℚ × Nat × Option String) := []
  latency_full : List (ℚ × Nat × Option String) := []
  tokens_requested : List (Nat × Option String) := []
  tokens_used : List (Nat × Option String) := []
deriving DecidableEq, Repr

/-- The metrics block of `catchall`, in source order: record base latency,
record full latency, then — only if the token count is truthy — record
tokens requested, and additionally tokens used when the status is below
300.  `raise_at` marks the `record` call (if any) that raises; earlier
observations persist and the `Bool` reports whether an exception
occurred. -/
def record_metrics (raise_at : Option MetricsCall) (base_s full_s : ℚ)
    (status_code : Nat) (deployment : Option String) (tokens : Option Nat) :
    Metrics × Bool :=
  if raise_at = some .base then ({}, true)
  else
    let m : Metrics := { latency_base := [(base_s, status_code, deployment)] }
    if raise_at = some .full then (m, true)
    else
      let m := { m with latency_full := [(full_s, status_code, deployment)] }
      if truthyNat tokens then
        if raise_at = some .requested then (m, true)
        else
          let m := { m with tokens_requested := [(tokens.getD 0, deployment)] }
          if status_code < 300 then
            if raise_at = some .used then (m, true)
            else ({ m with tokens_used := [(tokens.getD 0, deployment)] }, false)
          else (m, false)
      else (m, false)

/-- Per-request behaviour of the external collaborators and of the clock,
fixed before the pipeline runs: what the generators return (`generate`
mode), what the record/replay handler returns (`record`/`replay` modes),
the context values the producer left behind, what the limiter returns if
invoked, the elapsed base duration in seconds, and whether (and where) a
histogram `record` call raises. -/
structure RunEnv where
  generators_call : CallOutcome (Option SimResponse) := .returns none
  record_replay_call : CallOutcome (Option SimResponse) := .returns none
  ctx_values : ContextValues := {}
  limiter_call : CallOutcome (Option SimResponse) := .returns none
  base_duration_s : ℚ := 0
  metrics_raise_at : Option MetricsCall := none
deriving DecidableEq, Repr

/-- What one run of `catchall` did: the response returned to the caller,
the total artificial delay slept, the arguments the limiter was invoked
with (if it was), and the histogram observations made. -/
structure RunResult where
  response : SimResponse
  slept : ℚ
  limiter_called : Option (ContextValues × SimResponse)
  metrics : Metrics
deriving DecidableEq, Repr

/-- The generic 500 response produced by `Response(status_code=500)`. -/
def server_error_response : SimResponse := { status_code := 500, body := "" }

/-- The producer `catchall` dispatches to: `invoke_generators` in
`generate` mode, the record/replay handler in `record` and `replay`
modes. -/
def producer_call (mode : SimulatorMode) (env : RunEnv) :
    CallOutcome (Option SimResponse) :=
  match mode with
  | .generate => env.generators_call
  | .record => env.record_replay_call
  | .replay => env.record_replay_call

/-- Latency emulation and metrics recording — the tail of `catchall`
after the limiter stage, shared by the limiter and pass-through
branches.  Extra latency is slept when the (post-limiter) status is below
300 and the recorded-duration hint exceeds the elapsed time; the four
histograms are then recorded; a raising `record` call turns the returned
response into a bare 500 while earlier side effects persist. -/
def finish_request (env : RunEnv) (ctx : ContextValues)
    (limiter_called : Option (ContextValues × SimResponse))
    (response : SimResponse) : RunResult :=
  let recorded_duration_ms := ctx.recorded_duration_ms.getD 0
  let recorded_duration_s := recorded_duration_ms / 1000
  let extra_latency := recorded_duration_s - env.base_duration_s
  let slept :=
    if response.status_code < 300 ∧ extra_latency > 0 then extra_latency else 0
  let full_s := env.base_duration_s + slept
  let mr := record_metrics env.metrics_raise_at env.base_duration_s full_s
    response.status_code ctx.deployment_name ctx.openai_tokens
  if mr.2 then
    { response := server_error_response, slept := slept,
      limiter_called := limiter_called, metrics := mr.1 }
  else
    { response := response, slept := slept,
      limiter_called := limiter_called, metrics := mr.1 }

/-- The `catchall` request handler, translated stage by stage from
`app_builder.py`: dispatch on the mode; a missing response is logged and
becomes a bare 500; the limiter is looked up by the context's limiter
name (a falsy or unregistered name means pass-through) and may replace
the response; extra latency is slept when the (post-limiter) status is
below 300 and the recorded-duration hint exceeds the elapsed time; the
four histograms are then recorded.  Any exception inside the `try` block
— from the producer, the limiter or a histogram `record` call — is caught
and converted to a bare 500, with earlier side effects (sleep, earlier
observations) already performed. -/
def catchall (config : Config) (env : RunEnv) : RunResult :=
  match producer_call config.simulator_mode env with
  | .raises =>
    { response := server_error_response, slept := 0,
      limiter_called := none, metrics := {} }
  | .returns none =>
    { response := server_error_response, slept := 0,
      limiter_called := none, metrics := {} }
  | .returns (some response) =>
    let ctx := env.ctx_values
    let limiter_found :=
      truthyStr ctx.limiter_name && limiters_contains (ctx.limiter_name.getD "")
    if limiter_found then
      match env.limiter_call with
      | .raises =>
        { response := server_error_response, slept := 0,
          limiter_called := some (ctx, response), metrics := {} }
      | .returns limit_response =>
        let final := limit_response.getD response
        finish_request env ctx (some (ctx, response)) final
    else
      finish_request env ctx none response

/-- Result of a request at the app level: the response, whether a
`RequestContext` was created, and everything `catchall` reports. -/
structure AppResult where
  response : SimResponse
  context_created : Bool
  slept : ℚ
  limiter_called : Option (ContextValues × SimResponse)
  metrics : Metrics
deriving DecidableEq, Repr

/-- The catch-all route: the `validate_api_key` dependency runs first and
a 401 short-circuits the handler (no context, no metrics); otherwise the
`catchall` body runs. -/
def handle_catchall_route (config : Config) (c : Credentials) (env : RunEnv) :
    AppResult :=
  match validate_api_key config.simulator_api_key c with
  | .error resp =>
    { response := resp, context_created := false, slept := 0,
      limiter_called := none, metrics := {} }
  | .ok _ =>
    let r := catchall config env
    { response := r.response, context_created := true, slept := r.slept,
      limiter_called := r.limiter_called, metrics := r.metrics }

/-- The static acknowledgement returned by the `GET /` liveness probe. -/
def root_message : String := "👋 aoai-simulated-api is running"

/-- The `GET /` handler: it has no `validate_api_key` dependency and
ignores every header of the request, returning the static message. -/
def handle_root (_c : Credentials) : SimResponse :=
  { status_code := 200, body := root_message }

/-- Result of the save-recordings management action: the response and
whether `record_replay_handler.save_recordings()` was invoked. -/
structure SaveResult where
  response : SimResponse
  saved : Bool
deriving DecidableEq, Repr

/-- Body of `POST /++/save-recordings`: in `record` mode save the
recordings and return 200; in any other mode do not save and return a 400
with an explanatory body. -/
def save_recordings (config : Config) : SaveResult :=
  if config.simulator_mode = .record then
    { response := { status_code := 200, body := "📼 Recordings saved" },
      saved := true }
  else
    { response :=
        { status_code := 400,
          body := "⚠️ Not saving recordings as not in record mode" },
      saved := false }

/-- The save-recordings route: the `validate_api_key` dependency runs
first; a 401 short-circuits the handler. -/
def handle_save_recordings (config : Config) (c : Credentials) : SaveResult :=
  match validate_api_key config.simulator_api_key c with
  | .error resp => { response := resp, saved := false }
  | .ok _ => save_recordings config

/-- Whether the metrics block actually raises: the base- and full-latency
`record` calls always execute; the tokens-requested call executes only
for a truthy token count, and the tokens-used call additionally only for
a status below 300. -/
def metrics_raise_occurs (raise_at : Option MetricsCall) (status_code : Nat)
    (tokens : Option Nat) : Bool :=
  match raise_at with
  | none => false
  | some .base => true
  | some .full => true
  | some .requested => truthyNat tokens
  | some .used => truthyNat tokens && decide (status_code < 300)

theorem record_metrics_snd (raise_at : Option MetricsCall) (base_s full_s : ℚ)
    (status_code : Nat) (deployment : Option String) (tokens : Option Nat) :
    (record_metrics raise_at base_s full_s status_code deployment tokens).2 =
      metrics_raise_occurs raise_at status_code tokens := by
  unfold record_metrics metrics_raise_occurs
  rcases raise_at with _ | mc
  · split_ifs <;> simp_all
  · cases mc <;> split_ifs <;> simp_all

theorem record_metrics_none (base_s full_s : ℚ) (status_code : Nat)
    (deployment : Option String) (tokens : Option Nat) :
    record_metrics none base_s full_s status_code deployment tokens =
      ({ latency_base := [(base_s, status_code, deployment)],
         latency_full := [(full_s, status_code, deployment)],
         tokens_requested :=
           if truthyNat tokens then [(tokens.getD 0, deployment)] else [],
         tokens_used :=
           if truthyNat tokens ∧ status_code < 300 then
             [(tokens.getD 0, deployment)]
           else [] }, false) := by
  simp only [record_metrics]
  split_ifs <;> simp_all

theorem finish_request_none (env : RunEnv) (ctx : ContextValues)
    (lc : Option (ContextValues × SimResponse)) (resp : SimResponse)
    (hm : env.metrics_raise_at = none) :
    finish_request env ctx lc resp =
      { response := resp,
        slept :=
          if resp.status_code < 300 ∧
              ctx.recorded_duration_ms.getD 0 / 1000 - env.base_duration_s > 0 then
            ctx.recorded_duration_ms.getD 0 / 1000 - env.base_duration_s
          else 0,
        limiter_called := lc,
        metrics :=
          { latency_base :=
              [(env.base_duration_s, resp.status_code, ctx.deployment_name)],
            latency_full :=
              [(env.base_duration_s +
                  (if resp.status_code < 300 ∧
                      ctx.recorded_duration_ms.getD 0 / 1000 - env.base_duration_s > 0 then
                    ctx.recorded_duration_ms.getD 0 / 1000 - env.base_duration_s
                  else 0),
                resp.status_code, ctx.deployment_name)],
            tokens_requested :=
              if truthyNat ctx.openai_tokens then
                [(ctx.openai_tokens.getD 0, ctx.deployment_name)]
              else [],
            tokens_used :=
              if truthyNat ctx.openai_tokens ∧ resp.status_code < 300 then
                [(ctx.openai_tokens.getD 0, ctx.deployment_name)]
              else [] } } := by
  simp [finish_request, hm, record_metrics_none]

/-- C5: when the selected producer (the generators in `generate` mode, the
record/replay handler in `record` or `replay` mode) yields no response,
`catchall` returns the generic 500 server-error response immediately: no
limiter is invoked, no artificial delay is slept, no histogram
observation is recorded, and (the handler being a total function into
`RunResult`) no exception escapes to the caller. -/
theorem dispatch_fault_returns_500 (config : Config) (env : RunEnv)
    (h : producer_call config.simulator_mode env = .returns none) :
    catchall config env =
      { response := server_error_response, slept := 0,
        limiter_called := none, metrics := {} } := by
  unfold catchall
  rw [h]

/-- Witness for C5: in `replay` mode with no matching recorded exchange
the pipeline returns a bare 500 with no limiter call and no metrics. -/
theorem dispatch_fault_returns_500_witness :
    catchall { simulator_mode := .replay, simulator_api_key := "secret" }
        { ctx_values := { openai_tokens := some 10 } } =
      { response := server_error_response, slept := 0,
        limiter_called := none, metrics := {} } :=
  dispatch_fault_returns_500 _ _ rfl

/-- Counterexample to C2: on the dispatch-fault path (record/replay
handler returns no response) the latency histograms receive zero
observations, not one, so metrics are not recorded on every path. -/
theorem metrics_skipped_on_dispatch_fault :
    ((catchall { simulator_mode := .replay, simulator_api_key := "secret" }
        { ctx_values := { openai_tokens := some 10 } }).metrics.latency_base.length
      = 0) ∧
    ((catchall { simulator_mode := .replay, simulator_api_key := "secret" }
        { ctx_values := { openai_tokens := some 10 } }).metrics.latency_full.length
      = 0) :=
  ⟨rfl, rfl⟩

/-- C2 (amended): the latency histograms are recorded exactly once per
request on every run that reaches the metrics stage — the producer
returned a response, the limiter did not raise, and recording itself does
not fail — including runs where the limiter replaced the response; on the
dispatch-fault path (producer raised, or produced no response) no
histogram observation is recorded at all. -/
theorem metrics_once_on_metrics_path (config : Config) (env : RunEnv)
    (hm : env.metrics_raise_at = none) :
    (∀ resp : SimResponse,
      producer_call config.simulator_mode env = .returns (some resp) →
      env.limiter_call ≠ .raises →
      (catchall config env).metrics.latency_base.length = 1 ∧
      (catchall config env).metrics.latency_full.length = 1) ∧
    (producer_call config.simulator_mode env = .raises ∨
      producer_call config.simulator_mode env = .returns none →
      (catchall config env).metrics = {}) := by
  constructor
  · intro resp hp hl
    unfold catchall
    rw [hp]
    dsimp only
    split
    · cases hcall : env.limiter_call with
      | raises => exact absurd hcall hl
      | returns r => simp [finish_request_none _ _ _ _ hm]
    · simp [finish_request_none _ _ _ _ hm]
  · intro hp
    rcases hp with h | h <;> (unfold catchall; rw [h])

/-- Witness for C2 (amended): a successful `generate`-mode run records
each latency histogram exactly once. -/
theorem metrics_once_on_metrics_path_witness :
    (catchall { simulator_mode := .generate, simulator_api_key := "secret" }
        { generators_call := .returns (some { status_code := 200, body := "ok" }) }
      ).metrics.latency_base.length = 1 ∧
    (catchall { simulator_mode := .generate, simulator_api_key := "secret" }
        { generators_call := .returns (some { status_code := 200, body := "ok" }) }
      ).metrics.latency_full.length = 1 :=
  (metrics_once_on_metrics_path _ _ rfl).1 { status_code := 200, body := "ok" }
    rfl (by decide)

/-- C8: an authenticated call to the save-recordings action saves and
returns 200 in `record` mode, and in any other mode does not save and
returns a 400 with an explanatory body. -/
theorem save_recordings_mode_gate (config : Config) (c : Credentials)
    (h : validate_api_key config.simulator_api_key c = .ok true) :
    (config.simulator_mode = .record →
      handle_save_recordings config c =
        { response := { status_code := 200, body := "📼 Recordings saved" },
          saved := true }) ∧
    (config.simulator_mode ≠ .record →
      handle_save_recordings config c =
        { response :=
            { status_code := 400,
              body := "⚠️ Not saving recordings as not in record mode" },
          saved := false }) := by
  unfold handle_save_recordings
  rw [h]
  constructor <;> intro hmode <;> simp [save_recordings, hmode]

/-- Witness for C8: in `record` mode with a bearer credential the action
saves and returns 200; in `replay` mode it refuses with a 400. -/
theorem save_recordings_mode_gate_witness :
    handle_save_recordings
        { simulator_mode := .record, simulator_api_key := "secret" }
        { authorization := some "Bearer x" } =
      { response := { status_code := 200, body := "📼 Recordings saved" },
        saved := true } ∧
    handle_save_recordings
        { simulator_mode := .replay, simulator_api_key := "secret" }
        { authorization := some "Bearer x" } =
      { response :=
          { status_code := 400,
            body := "⚠️ Not saving recordings as not in record mode" },
        saved := false } :=
  ⟨(save_recordings_mode_gate
      { simulator_mode := .record, simulator_api_key := "secret" }
      { authorization := some "Bearer x" } rfl).1 rfl,
   (save_recordings_mode_gate
      { simulator_mode := .replay, simulator_api_key := "secret" }
      { authorization := some "Bearer x" } rfl).2 (by decide)⟩

/-- C9: when the context's token count is falsy (absent or zero), neither
the tokens-requested nor the tokens-used histogram receives an
observation — whatever the final status, in particular also for statuses
below 300. -/
theorem zero_tokens_not_recorded (config : Config) (env : RunEnv)
    (resp : SimResponse)
    (hprod : producer_call config.simulator_mode env = .returns (some resp))
    (hlim : env.limiter_call ≠ .raises)
    (hm : env.metrics_raise_at = none)
    (htok : truthyNat env.ctx_values.openai_tokens = false) :
    (catchall config env).metrics.tokens_requested = [] ∧
    (catchall config env).metrics.tokens_used = [] := by
  unfold catchall
  rw [hprod]
  dsimp only
  split
  · cases hcall : env.limiter_call with
    | raises => exact absurd hcall hlim
    | returns r => simp [finish_request_none _ _ _ _ hm, htok]
  · simp [finish_request_none _ _ _ _ hm, htok]

/-- Witness for C9: a 200 response whose context carries a token count of
zero records no token observation. -/
theorem zero_tokens_not_recorded_witness :
    (catchall { simulator_mode := .generate, simulator_api_key := "secret" }
        { generators_call := .returns (some { status_code := 200, body := "ok" }),
          ctx_values := { openai_tokens := some 0 } }).metrics.tokens_requested
      = [] ∧
    (catchall { simulator_mode := .generate, simulator_api_key := "secret" }
        { generators_call := .returns (some { status_code := 200, body := "ok" }),
          ctx_values := { openai_tokens := some 0 } }).metrics.tokens_used
      = [] :=
  zero_tokens_not_recorded _ _ { status_code := 200, body := "ok" }
    rfl (by decide) rfl rfl

theorem finish_request_latency (env : RunEnv) (ctx : ContextValues)
    (lc : Option (ContextValues × SimResponse)) (resp : SimResponse)
    (hm : env.metrics_raise_at = none) :
    ((finish_request env ctx lc resp).response.status_code < 300 →
      (finish_request env ctx lc resp).slept =
        if ctx.recorded_duration_ms.getD 0 / 1000 - env.base_duration_s > 0 then
          ctx.recorded_duration_ms.getD 0 / 1000 - env.base_duration_s
        else 0) ∧
    (300 ≤ (finish_request env ctx lc resp).response.status_code →
      (finish_request env ctx lc resp).slept = 0) := by
  rw [finish_request_none _ _ _ _ hm]
  dsimp only
  constructor
  · intro hlt
    simp [hlt]
  · intro hge
    have hn : ¬ resp.status_code < 300 := by omega
    simp [hn]

/-- C1: when no failure occurs while recording metrics (so the response
the caller sees is the response the latency stage inspected), a final
status below 300 makes the pipeline sleep for exactly
`recorded_duration_ms / 1000 − elapsed` when that difference is positive
and not at all otherwise (the hint defaulting to zero when absent), and a
final status of 300 or more is never given any artificial delay even when
a hint is present. -/
theorem latency_emulation_exact (config : Config) (env : RunEnv)
    (hm : env.metrics_raise_at = none) :
    ((catchall config env).response.status_code < 300 →
      (catchall config env).slept =
        if env.ctx_values.recorded_duration_ms.getD 0 / 1000 -
            env.base_duration_s > 0 then
          env.ctx_values.recorded_duration_ms.getD 0 / 1000 - env.base_duration_s
        else 0) ∧
    (300 ≤ (catchall config env).response.status_code →
      (catchall config env).slept = 0) := by
  unfold catchall
  cases hp : producer_call config.simulator_mode env with
  | raises =>
    dsimp only [server_error_response]
    exact ⟨fun h => absurd h (by decide), fun _ => rfl⟩
  | returns r =>
    cases r with
    | none =>
      dsimp only [server_error_response]
      exact ⟨fun h => absurd h (by decide), fun _ => rfl⟩
    | some resp =>
      dsimp only
      split
      · cases env.limiter_call with
        | raises =>
          dsimp only [server_error_response]
          exact ⟨fun h => absurd h (by decide), fun _ => rfl⟩
        | returns lr =>
          dsimp only
          exact finish_request_latency env env.ctx_values _ _ hm
      · exact finish_request_latency env env.ctx_values _ _ hm

/-- Witness for C1: a 200 response with a 500 ms recorded-duration hint
and 1/20 s of elapsed time sleeps for exactly 9/20 s. -/
theorem latency_emulation_exact_witness :
    (catchall { simulator_mode := .generate, simulator_api_key := "secret" }
        { generators_call := .returns (some { status_code := 200, body := "ok" }),
          ctx_values := { recorded_duration_ms := some 500 },
          base_duration_s := 1/20 }).slept = 9/20 := by
  have h := (latency_emulation_exact
    { simulator_mode := .generate, simulator_api_key := "secret" }
    { generators_call := .returns (some { status_code := 200, body := "ok" }),
      ctx_values := { recorded_duration_ms := some 500 },
      base_duration_s := 1/20 } rfl).1 (by decide)
  rw [h]
  norm_num

/-- Counterexample to C3: a context that carries a token count (here
zero) with a final status below 300 records nothing in the
tokens-requested histogram (nor in tokens-used), so presence of the count
alone does not imply an observation. -/
theorem tokens_zero_count_not_observed :
    ((catchall { simulator_mode := .generate, simulator_api_key := "secret" }
        { generators_call := .returns (some { status_code := 204, body := "" }),
          ctx_values := { openai_tokens := some 0 } }).response.status_code
      < 300) ∧
    (({ generators_call := .returns (some { status_code := 204, body := "" }),
        ctx_values := { openai_tokens := some 0 } } :
          RunEnv).ctx_values.openai_tokens = some 0) ∧
    ((catchall { simulator_mode := .generate, simulator_api_key := "secret" }
        { generators_call := .returns (some { status_code := 204, body := "" }),
          ctx_values := { openai_tokens := some 0 } }).metrics.tokens_requested
      = []) ∧
    ((catchall { simulator_mode := .generate, simulator_api_key := "secret" }
        { generators_call := .returns (some { status_code := 204, body := "" }),
          ctx_values := { openai_tokens := some 0 } }).metrics.tokens_used
      = []) :=
  ⟨by decide, rfl, rfl, rfl⟩

/-- C3 (amended): with "carries a token count" read as carrying a truthy
(non-zero) token count — Python truthiness is what the code tests — the
tokens-used histogram receives exactly one observation iff the count is
truthy and the final status is below 300, and the tokens-requested
histogram receives exactly one observation iff the count is truthy,
regardless of status. -/
theorem tokens_histograms_truthy (config : Config) (env : RunEnv)
    (resp : SimResponse)
    (hprod : producer_call config.simulator_mode env = .returns (some resp))
    (hlim : env.limiter_call ≠ .raises)
    (hm : env.metrics_raise_at = none) :
    (catchall config env).metrics.tokens_requested.length =
      (if truthyNat env.ctx_values.openai_tokens then 1 else 0) ∧
    (catchall config env).metrics.tokens_used.length =
      (if truthyNat env.ctx_values.openai_tokens ∧
          (catchall config env).response.status_code < 300 then 1 else 0) := by
  unfold catchall
  rw [hprod]
  dsimp only
  split
  · cases hcall : env.limiter_call with
    | raises => exact absurd hcall hlim
    | returns lr =>
      dsimp only
      rw [finish_request_none _ _ _ _ hm]
      dsimp only
      constructor <;> split_ifs <;> simp_all
  · rw [finish_request_none _ _ _ _ hm]
    dsimp only
    constructor <;> split_ifs <;> simp_all

/-- Witness for C3 (amended): a 200 response with a token count of 42
records one observation in each token histogram. -/
theorem tokens_histograms_truthy_witness :
    (catchall { simulator_mode := .generate, simulator_api_key := "secret" }
        { generators_call := .returns (some { status_code := 200, body := "ok" }),
          ctx_values := { openai_tokens := some 42 } }).metrics.tokens_requested.length
      = 1 ∧
    (catchall { simulator_mode := .generate, simulator_api_key := "secret" }
        { generators_call := .returns (some { status_code := 200, body := "ok" }),
          ctx_values := { openai_tokens := some 42 } }).metrics.tokens_used.length
      = 1 := by
  have h := tokens_histograms_truthy
    { simulator_mode := .generate, simulator_api_key := "secret" }
    { generators_call := .returns (some { status_code := 200, body := "ok" }),
      ctx_values := { openai_tokens := some 42 } }
    { status_code := 200, body := "ok" } rfl (by decide) rfl
  exact ⟨by rw [h.1]; decide, by rw [h.2]; decide⟩

/-- C4: the validator accepts any truthy bearer-style `Authorization`
header unconditionally, and otherwise accepts exactly when the `api-key`
header or, failing that, the `ocp-apim-subscription-key` header is truthy
and equal to the configured secret (`secrets.compare_digest` compared for
equality; its constant-time execution is a timing property outside the
embedding); when no carrier matches, it raises the 401 response and the
catch-all route short-circuits with it — no context is created and no
metrics are recorded. -/
theorem validate_api_key_precedence (config : Config) (c : Credentials)
    (env : RunEnv) :
    (truthyStr c.authorization = true →
      validate_api_key config.simulator_api_key c = .ok true) ∧
    (validate_api_key config.simulator_api_key c = .ok true ↔
      (truthyStr c.authorization = true ∨
        (truthyStr c.api_key = true ∧
          c.api_key.getD "" = config.simulator_api_key) ∨
        (truthyStr c.ocp_apim_subscription_key = true ∧
          c.ocp_apim_subscription_key.getD "" = config.simulator_api_key))) ∧
    (validate_api_key config.simulator_api_key c ≠ .ok true →
      validate_api_key config.simulator_api_key c = .error auth_failure_response ∧
      handle_catchall_route config c env =
        { response := auth_failure_response, context_created := false,
          slept := 0, limiter_called := none, metrics := {} }) := by
  unfold handle_catchall_route validate_api_key compare_digest
  split_ifs with h1 h2 h3 <;> simp_all

/-- Witness for C4: with no credential carrier at all, the validator
raises the 401 response and the catch-all route returns it with no
context and no metrics. -/
theorem validate_api_key_precedence_witness :
    validate_api_key
        ({ simulator_mode := .generate, simulator_api_key := "secret" } :
          Config).simulator_api_key {} = .error auth_failure_response ∧
    handle_catchall_route
        { simulator_mode := .generate, simulator_api_key := "secret" } {} {} =
      { response := auth_failure_response, context_created := false,
        slept := 0, limiter_called := none, metrics := {} } :=
  (validate_api_key_precedence
    { simulator_mode := .generate, simulator_api_key := "secret" } {} {}).2.2
    (by simp [validate_api_key, truthyStr])

/-- C6: when the context names a truthy limiter key that is registered,
the limiter is invoked with the context and the producer's response, and
the final response is the limiter's replacement when it returns one and
the original response when it returns nothing; when the key is falsy or
unregistered the limiter is not invoked and the response passes through
unchanged; and any replacement happens strictly before the latency and
metrics stages: the base-latency histogram is tagged with the
post-limiter status and a post-limiter status of 300 or more receives no
artificial delay. -/
theorem limiter_replace_or_pass (config : Config) (env : RunEnv)
    (resp : SimResponse)
    (hprod : producer_call config.simulator_mode env = .returns (some resp))
    (hlim : env.limiter_call ≠ .raises)
    (hm : env.metrics_raise_at = none) :
    ((truthyStr env.ctx_values.limiter_name &&
        limiters_contains (env.ctx_values.limiter_name.getD "")) = true →
      (catchall config env).limiter_called = some (env.ctx_values, resp) ∧
      (∀ rep : SimResponse, env.limiter_call = .returns (some rep) →
        (catchall config env).response = rep) ∧
      (env.limiter_call = .returns none →
        (catchall config env).response = resp)) ∧
    ((truthyStr env.ctx_values.limiter_name &&
        limiters_contains (env.ctx_values.limiter_name.getD "")) = false →
      (catchall config env).limiter_called = none ∧
      (catchall config env).response = resp) ∧
    ((catchall config env).metrics.latency_base =
      [(env.base_duration_s, (catchall config env).response.status_code,
        env.ctx_values.deployment_name)]) ∧
    (300 ≤ (catchall config env).response.status_code →
      (catchall config env).slept = 0) := by
  unfold catchall
  rw [hprod]
  dsimp only
  split_ifs with hfound
  · cases hcall : env.limiter_call with
    | raises => exact absurd hcall hlim
    | returns lr =>
      dsimp only
      rw [finish_request_none _ _ _ _ hm]
      dsimp only
      refine ⟨fun _ => ⟨rfl, ?_, ?_⟩, fun hfalse => by simp_all, rfl, ?_⟩
      · intro rep hr
        injection hr with h
        subst h
        rfl
      · intro hr
        injection hr with h
        subst h
        rfl
      · intro hge
        have hn : ¬ (lr.getD resp).status_code < 300 := by omega
        simp [hn]
  · rw [finish_request_none _ _ _ _ hm]
    dsimp only
    refine ⟨fun htrue => by simp_all, fun _ => ⟨rfl, rfl⟩, rfl, ?_⟩
    intro hge
    have hn : ¬ resp.status_code < 300 := by omega
    simp [hn]

/-- Witness for C6: with limiter key `openai` and a limiter that replaces
a 200 with a 429, the final response is the 429, the limiter was invoked
with the original 200, and the over-quota response gets no artificial
delay. -/
theorem limiter_replace_or_pass_witness :
    (catchall { simulator_mode := .generate, simulator_api_key := "secret" }
        { generators_call := .returns (some { status_code := 200, body := "ok" }),
          ctx_values := { limiter_name := some "openai",
                          recorded_duration_ms := some 500 },
          limiter_call :=
            .returns (some { status_code := 429, body := "limited" }) }).response
      = { status_code := 429, body := "limited" } ∧
    (catchall { simulator_mode := .generate, simulator_api_key := "secret" }
        { generators_call := .returns (some { status_code := 200, body := "ok" }),
          ctx_values := { limiter_name := some "openai",
                          recorded_duration_ms := some 500 },
          limiter_call :=
            .returns (some { status_code := 429, body := "limited" }) }).slept
      = 0 := by
  have h := limiter_replace_or_pass
    { simulator_mode := .generate, simulator_api_key := "secret" }
    { generators_call := .returns (some { status_code := 200, body := "ok" }),
      ctx_values := { limiter_name := some "openai",
                      recorded_duration_ms := some 500 },
      limiter_call :=
        .returns (some { status_code := 429, body := "limited" }) }
    { status_code := 200, body := "ok" } rfl (by decide) rfl
  exact ⟨(h.1 (by decide)).2.1 { status_code := 429, body := "limited" } rfl,
    h.2.2.2 (by decide)⟩

/-- Counterexample to C7: when a histogram `record` call raises, the
broad exception handler returns the generic 500 instead of the final 200
response — the failure does prevent the final response from reaching the
caller. -/
theorem metrics_failure_overwrites_response :
    ((catchall { simulator_mode := .generate, simulator_api_key := "secret" }
        { generators_call := .returns (some { status_code := 200, body := "ok" }),
          metrics_raise_at := some .base }).response ≠
      { status_code := 200, body := "ok" }) ∧
    ((catchall { simulator_mode := .generate, simulator_api_key := "secret" }
        { generators_call := .returns (some { status_code := 200, body := "ok" }),
          metrics_raise_at := some .base }).response = server_error_response) :=
  ⟨by decide, rfl⟩

/-- C7 (amended): a failure raised while recording metrics is caught at
the orchestrator boundary and converted into the generic 500 response —
the caller always receives a clean HTTP response (no exception escapes)
but it is the 500, not the final response the pipeline had computed. -/
theorem metrics_failure_clean_500 (config : Config) (env : RunEnv)
    (resp : SimResponse) (ctx : ContextValues)
    (lc : Option (ContextValues × SimResponse)) :
    (metrics_raise_occurs env.metrics_raise_at resp.status_code
        ctx.openai_tokens = true →
      (finish_request env ctx lc resp).response = server_error_response) ∧
    (producer_call config.simulator_mode env = .returns (some resp) →
      env.limiter_call ≠ .raises →
      env.metrics_raise_at = some .base ∨ env.metrics_raise_at = some .full →
      (catchall config env).response = server_error_response) := by
  constructor
  · intro hocc
    simp [finish_request, record_metrics_snd, hocc]
  · intro hp hl hro
    unfold catchall
    rw [hp]
    dsimp only
    split_ifs with hfound
    · cases hcall : env.limiter_call with
      | raises => exact absurd hcall hl
      | returns lr =>
        dsimp only
        rcases hro with h | h <;>
          simp [finish_request, record_metrics_snd, metrics_raise_occurs, h]
    · rcases hro with h | h <;>
        simp [finish_request, record_metrics_snd, metrics_raise_occurs, h]

/-- Witness for C7 (amended): a raising full-latency `record` call turns
a successful 200 run into a returned 500. -/
theorem metrics_failure_clean_500_witness :
    (catchall { simulator_mode := .generate, simulator_api_key := "secret" }
        { generators_call := .returns (some { status_code := 200, body := "ok" }),
          metrics_raise_at := some .full }).response = server_error_response :=
  (metrics_failure_clean_500
    { simulator_mode := .generate, simulator_api_key := "secret" }
    { generators_call := .returns (some { status_code := 200, body := "ok" }),
      metrics_raise_at := some .full }
    { status_code := 200, body := "ok" } {} none).2 rfl (by decide) (Or.inr rfl)

/-- C10: the `GET /` liveness probe has no authentication dependency and
ignores every credential carrier, so its response is the same for all
credentials and always the static acknowledgement, while the catch-all
and save-recordings routes short-circuit with the 401 response whenever
the validator rejects. -/
theorem root_ignores_credentials :
    (∀ c₁ c₂ : Credentials, handle_root c₁ = handle_root c₂) ∧
    (∀ c : Credentials,
      handle_root c = { status_code := 200, body := root_message }) ∧
    (∀ (config : Config) (c : Credentials) (env : RunEnv),
      validate_api_key config.simulator_api_key c ≠ .ok true →
      (handle_catchall_route config c env).response = auth_failure_response ∧
      (handle_save_recordings config c).response = auth_failure_response) := by
  refine ⟨fun _ _ => rfl, fun _ => rfl, ?_⟩
  intro config c env hv
  have he : validate_api_key config.simulator_api_key c =
      .error auth_failure_response := by
    unfold validate_api_key at hv ⊢
    split_ifs at hv ⊢ <;> simp_all
  constructor
  · unfold handle_catchall_route
    rw [he]
  · unfold handle_save_recordings
    rw [he]

/-- Witness for C10: the probe's response does not depend on the
credentials, and a wrong api-key is rejected by the catch-all route. -/
theorem root_ignores_credentials_witness :
    handle_root { api_key := some "whatever" } = handle_root {} ∧
    (handle_catchall_route
        { simulator_mode := .generate, simulator_api_key := "secret" }
        { api_key := some "wrong" } {}).response = auth_failure_response :=
  ⟨root_ignores_credentials.1 { api_key := some "whatever" } {},
   (root_ignores_credentials.2.2
      { simulator_mode := .generate, simulator_api_key := "secret" }
      { api_key := some "wrong" } {}
      (by simp [validate_api_key, truthyStr, compare_digest])).1⟩

end AoaiSim
